import Mathlib

/-!
Verification of the sasmodels model-descriptor files
`sasmodels/models/core_shell_ellipsoid.py` and `sasmodels/models/cylinder.py`.

Each Python model file is declarative: a parameter table (name, units,
default, bounds, role tag, description), a source-file list naming the
external compiled kernels, an effective-radius function `ER`, a demo
parameter mapping and a list of regression test cases.  The definitions
below embed that data and the two small `ER` routines.  Parameter defaults,
bounds and test-case override values are exact decimal literals in the
source, so they are embedded as rationals; momentum-transfer inputs and the
`ER` routines involve `pi` and cube roots, so they live over the reals.
-/

/-- Extended value: a finite rational or one of the two numpy infinities
`inf` / `-inf`, as used in the `[lower, upper]` bound columns of the
parameter tables. -/
inductive XVal where
  | ninf : XVal
  | fin : ℚ → XVal
  | inf : XVal
deriving DecidableEq

/-- Boolean order on extended values: `-inf` below everything, `inf` above
everything, finite values compared as rationals. -/
def XVal.leb : XVal → XVal → Bool
  | .ninf, _ => true
  | _, .inf => true
  | .fin x, .fin y => decide (x ≤ y)
  | _, _ => false

/-- One row of a model's parameter table:
`["name", "units", default, [lower, upper], "type", "description"]`. -/
structure ParameterSpec where
  name : String
  units : String
  default : ℚ
  lower : XVal
  upper : XVal
  type : String
  description : String

/-- A parameter row satisfies the bound invariant when
`lower ≤ default ≤ upper` in the extended order. -/
def ParameterSpec.boundsOK (p : ParameterSpec) : Bool :=
  p.lower.leb (XVal.fin p.default) && (XVal.fin p.default).leb p.upper

/-- The momentum-transfer input of a test case: a scalar `q` for 1D or a
`(qx, qy)` pair for 2D. -/
inductive QInput where
  | oneD : ℝ → QInput
  | twoD : ℝ → ℝ → QInput

/-- One regression test case: a partial parameter override mapping, a
momentum-transfer input, and the expected intensity. -/
structure TestCase where
  overrides : List (String × ℚ)
  input : QInput
  expected : ℚ

namespace core_shell_ellipsoid

def name : String := "core_shell_ellipsoid"

def title : String :=
  "Form factor for an spheroid ellipsoid particle with a core shell structure."

def category : String := "shape:ellipsoid"

/-- Parameter table of `core_shell_ellipsoid.py` (lines 103-113), one
`ParameterSpec` per source row, in source order. -/
def parameters : List ParameterSpec :=
  [ ⟨"radius_equat_core", "Ang", 200, .fin 0, .inf, "volume",
      "Equatorial radius of core, r minor core"⟩,
    ⟨"radius_polar_core", "Ang", 10, .fin 0, .inf, "volume",
      "Polar radius of core, r major core"⟩,
    ⟨"radius_equat_shell", "Ang", 250, .fin 0, .inf, "volume",
      "Equatorial radius of shell, r minor outer"⟩,
    ⟨"radius_polar_shell", "Ang", 30, .fin 0, .inf, "volume",
      "Polar radius of shell, r major outer"⟩,
    ⟨"sld_core", "1e-6/Ang^2", 2, .ninf, .inf, "sld",
      "Core scattering length density"⟩,
    ⟨"sld_shell", "1e-6/Ang^2", 1, .ninf, .inf, "sld",
      "Shell scattering length density"⟩,
    ⟨"sld_solvent", "1e-6/Ang^2", 6.3, .ninf, .inf, "sld",
      "Solvent scattering length density"⟩,
    ⟨"theta", "degrees", 0, .ninf, .inf, "orientation",
      "Oblate orientation wrt incoming beam"⟩,
    ⟨"phi", "degrees", 0, .ninf, .inf, "orientation",
      "Oblate orientation in the plane of the detector"⟩ ]

def source : List String :=
  ["lib/sph_j1c.c", "lib/gfn.c", "lib/gauss76.c", "core_shell_ellipsoid.c"]

/-- The ER function of `core_shell_ellipsoid.py` (lines 118-123).  The body delegates
to `sasmodels.models.ellipsoid.ER` (imported dynamically from the sibling
`ellipsoid` module, which is not among the given files), applied to the
polar and equatorial shell radii; the delegate is taken here as an explicit
function argument. -/
noncomputable def ER (ellipsoid_ER : ℝ → ℝ → ℝ)
    (radius_equat_core radius_polar_core radius_equat_shell
     radius_polar_shell : ℝ) : ℝ :=
  ellipsoid_ER radius_polar_shell radius_equat_shell

/-- The demo mapping of `core_shell_ellipsoid.py` (lines 126-135). -/
def demo : List (String × ℚ) :=
  [ ("scale", 1), ("background", 0.001),
    ("radius_equat_core", 200.0), ("radius_polar_core", 10.0),
    ("radius_equat_shell", 250.0), ("radius_polar_shell", 30.0),
    ("sld_core", 2.0), ("sld_shell", 1.0), ("sld_solvent", 6.3),
    ("theta", 0), ("phi", 0) ]

noncomputable def q : ℝ := 0.1

noncomputable def phi : ℝ := Real.pi / 6

noncomputable def qx : ℝ := q * Real.cos phi

noncomputable def qy : ℝ := q * Real.sin phi

/-- The tests list of `core_shell_ellipsoid.py` (lines 142-181), in source order. -/
noncomputable def tests : List TestCase :=
  [ ⟨[ ("radius_equat_core", 200.0), ("radius_polar_core", 20.0),
       ("radius_equat_shell", 250.0), ("radius_polar_shell", 30.0),
       ("sld_core", 2.0), ("sld_shell", 1.0), ("sld_solvent", 6.3),
       ("background", 0.001), ("scale", 1.0) ],
     .oneD 1.0, 0.00189402⟩,
    ⟨[ ("background", 0.01) ], .oneD 0.1, 8.86741⟩,
    ⟨[ ("radius_equat_core", 20.0), ("radius_polar_core", 200.0),
       ("radius_equat_shell", 54.0), ("radius_polar_shell", 3.0),
       ("sld_core", 20.0), ("sld_shell", 10.0), ("sld_solvent", 6.0),
       ("background", 0.0), ("scale", 1.0) ],
     .oneD 0.01, 26150.4⟩,
    ⟨[ ("background", 0.001) ], .twoD 0.4 0.5, 0.00170471⟩,
    ⟨[ ("radius_equat_core", 20.0), ("radius_polar_core", 200.0),
       ("radius_equat_shell", 54.0), ("radius_polar_shell", 3.0),
       ("sld_core", 20.0), ("sld_shell", 10.0), ("sld_solvent", 6.0),
       ("background", 0.01), ("scale", 0.01) ],
     .twoD qx qy, 0.105764⟩ ]

/-- The module-level attribute names defined by `core_shell_ellipsoid.py`,
in source order; the dispatch layer reads the registration-interface fields
from these. -/
def moduleAttrs : List String :=
  [ "name", "title", "description", "category", "parameters", "source",
    "ER", "demo", "q", "phi", "qx", "qy", "tests" ]

/-- Names of the parameters in the table. -/
def paramNames : List String := parameters.map ParameterSpec.name

end core_shell_ellipsoid

namespace cylinder

/-- The ER function of `cylinder.py` (lines 118-120):
`ddd = 0.75*radius*(2*radius*length + (length+radius)*(length+pi*radius))`,
returning `0.5 * ddd**(1/3)`. -/
noncomputable def ER (radius length : ℝ) : ℝ :=
  0.5 * (0.75 * radius *
    (2 * radius * length + (length + radius) * (length + Real.pi * radius)))
      ^ ((1 : ℝ) / 3)

def name : String := "cylinder"

def title : String := "Cylinder with uniform scattering length density"

def source : List String :=
  ["lib/J1.c", "lib/gauss76.c", "lib/cylkernel.c", "cylinder.c"]

/-- Parameter table stored under `INFO["parameters"]` in `cylinder.py`
(lines 126-141), one `ParameterSpec` per source row, in source order. -/
def parameters : List ParameterSpec :=
  [ ⟨"sld", "1e-6/Ang^2", 4, .ninf, .inf, "",
      "Cylinder scattering length density"⟩,
    ⟨"solvent_sld", "1e-6/Ang^2", 1, .ninf, .inf, "",
      "Solvent scattering length density"⟩,
    ⟨"radius", "Ang", 20, .fin 0, .inf, "volume", "Cylinder radius"⟩,
    ⟨"length", "Ang", 400, .fin 0, .inf, "volume", "Cylinder length"⟩,
    ⟨"theta", "degrees", 60, .ninf, .inf, "orientation", "In plane angle"⟩,
    ⟨"phi", "degrees", 60, .ninf, .inf, "orientation", "Out of plane angle"⟩ ]

/-- The keys of the `INFO` dict in `cylinder.py` (lines 122-158), in source
order; this dict is the model's registration record. -/
def infoKeys : List String :=
  ["name", "title", "source", "parameters", "description", "ER"]

end cylinder


/-- C2: for all radius `r ≥ 0` and length `L ≥ 0` the cylinder ER function
returns exactly `0.5*(0.75*r*(2*r*L + (L+r)*(L+pi*r)))^(1/3)`, and in
particular `ER 20 400` is positive. -/
theorem cylinder_ER_formula (r L : ℝ) (hr : 0 ≤ r) (hL : 0 ≤ L) :
    cylinder.ER r L
      = 0.5 * (0.75 * r *
          (2 * r * L + (L + r) * (L + Real.pi * r))) ^ ((1 : ℝ) / 3)
    ∧ 0 < cylinder.ER 20 400 := by
  constructor
  · rfl
  · unfold cylinder.ER
    positivity

/-- Witness for C2 at `r = 20`, `L = 400`. -/
theorem cylinder_ER_formula_witness :
    cylinder.ER 20 400
      = 0.5 * (0.75 * 20 *
          (2 * 20 * 400 + (400 + 20) * (400 + Real.pi * 20))) ^ ((1 : ℝ) / 3)
    ∧ 0 < cylinder.ER 20 400 :=
  ⟨(cylinder_ER_formula 20 400 (by norm_num) (by norm_num)).1,
   (cylinder_ER_formula 20 400 (by norm_num) (by norm_num)).2⟩

/-- C3: the core_shell_ellipsoid ER result depends only on the shell radii:
whatever the delegate ellipsoid-ER routine is, two calls agreeing on
`radius_equat_shell` and `radius_polar_shell` give the same result, equal to
the delegate applied to the polar and equatorial shell radii. -/
theorem core_shell_ER_shell_only (f : ℝ → ℝ → ℝ)
    (c1 p1 c2 p2 res rps : ℝ) :
    core_shell_ellipsoid.ER f c1 p1 res rps
      = core_shell_ellipsoid.ER f c2 p2 res rps
    ∧ core_shell_ellipsoid.ER f c1 p1 res rps = f rps res :=
  ⟨rfl, rfl⟩

/-- C4: every row of both parameter tables satisfies
`lower ≤ default ≤ upper` in the extended order. -/
theorem params_bounds_ok :
    ((core_shell_ellipsoid.parameters ++ cylinder.parameters).all
      ParameterSpec.boundsOK) = true := by decide

/-- C5 counterexample: the first core_shell_ellipsoid test case overrides
"background" and "scale", but neither name occurs in the model's parameter
table, so not every override name exists in the table. -/
theorem tests_override_unknown_name :
    (core_shell_ellipsoid.tests.map
        (fun t => t.overrides.map Prod.fst)).head? =
      some ["radius_equat_core", "radius_polar_core", "radius_equat_shell",
            "radius_polar_shell", "sld_core", "sld_shell", "sld_solvent",
            "background", "scale"]
    ∧ "background" ∉ core_shell_ellipsoid.paramNames
    ∧ "scale" ∉ core_shell_ellipsoid.paramNames :=
  ⟨by decide, by decide, by decide⟩

/-- C5 amended: every parameter name appearing in a test-case override of
core_shell_ellipsoid either exists in that model's parameter table or is
one of the two implicit common parameters "scale" and "background", which
the model file never declares in its own table. -/
theorem tests_override_names_known :
    ((core_shell_ellipsoid.tests.map (fun t => t.overrides.map Prod.fst)).all
      (fun ns => ns.all
        (fun n => core_shell_ellipsoid.paramNames.contains n
          || n == "scale" || n == "background"))) = true := by decide

/-- C6: the role tag of every row of both parameter tables is one of
"volume", "sld", "orientation" or the plain (empty) tag. -/
theorem param_types_valid :
    (((core_shell_ellipsoid.parameters ++ cylinder.parameters).map
        ParameterSpec.type).all
      (fun s => s == "volume" || s == "sld" || s == "orientation"
        || s == "")) = true := by decide

/-- C7 counterexample: the cylinder INFO dict exposes no "category", "demo"
or "tests" field. -/
theorem cylinder_INFO_missing_fields :
    "category" ∉ cylinder.infoKeys ∧ "demo" ∉ cylinder.infoKeys
    ∧ "tests" ∉ cylinder.infoKeys :=
  ⟨by decide, by decide, by decide⟩

/-- C7 amended: core_shell_ellipsoid exposes all of the
registration-interface fields (name, title, description, category,
parameters, source, demo, tests, plus ER); the cylinder INFO dict exposes
name, title, description, parameters, source and ER, but lacks category,
demo and tests. -/
theorem descriptor_fields_exposed :
    ((["name", "title", "description", "category", "parameters", "source",
        "ER", "demo", "tests"].all
      (fun f => core_shell_ellipsoid.moduleAttrs.contains f)) = true)
    ∧ ((["name", "title", "description", "parameters", "source", "ER"].all
      (fun f => cylinder.infoKeys.contains f)) = true)
    ∧ "category" ∉ cylinder.infoKeys ∧ "demo" ∉ cylinder.infoKeys
    ∧ "tests" ∉ cylinder.infoKeys :=
  ⟨by decide, by decide, by decide, by decide, by decide⟩

/-- C8: both ER functions are deterministic: the result is a function of
the arguments alone, so two evaluations at equal arguments return identical
results (the embedding is pure by construction, reflecting that the source
functions only perform arithmetic on their arguments). -/
theorem ER_pure :
    (∀ r1 L1 r2 L2 : ℝ, r1 = r2 → L1 = L2 →
      cylinder.ER r1 L1 = cylinder.ER r2 L2)
    ∧ (∀ (f : ℝ → ℝ → ℝ) (a1 b1 c1 d1 a2 b2 c2 d2 : ℝ),
        a1 = a2 → b1 = b2 → c1 = c2 → d1 = d2 →
        core_shell_ellipsoid.ER f a1 b1 c1 d1
          = core_shell_ellipsoid.ER f a2 b2 c2 d2) := by
  constructor
  · rintro r1 L1 r2 L2 rfl rfl; rfl
  · rintro f a1 b1 c1 d1 a2 b2 c2 d2 rfl rfl rfl rfl; rfl

/-- Witness for C8: two evaluations of cylinder ER at `(20, 400)` agree. -/
theorem ER_pure_witness :
    cylinder.ER 20 400 = cylinder.ER 20 400 :=
  ER_pure.1 20 400 20 400 rfl rfl

/-- C9: the module-level `(qx, qy)` pair of core_shell_ellipsoid.py is
built as `qx = 0.1*cos(pi/6)`, `qy = 0.1*sin(pi/6)`, hence
`qx^2 + qy^2 = 0.1^2` exactly in real arithmetic; the final (2D) test case
uses exactly this pair while the second (1D) test case uses `q = 0.1`. -/
theorem tests_q_magnitude :
    core_shell_ellipsoid.qx = 0.1 * Real.cos (Real.pi / 6)
    ∧ core_shell_ellipsoid.qy = 0.1 * Real.sin (Real.pi / 6)
    ∧ core_shell_ellipsoid.qx ^ 2 + core_shell_ellipsoid.qy ^ 2
        = (0.1 : ℝ) ^ 2
    ∧ core_shell_ellipsoid.q = (0.1 : ℝ)
    ∧ core_shell_ellipsoid.tests.map TestCase.input
        = [QInput.oneD 1.0, QInput.oneD 0.1, QInput.oneD 0.01,
           QInput.twoD 0.4 0.5,
           QInput.twoD core_shell_ellipsoid.qx core_shell_ellipsoid.qy] := by
  refine ⟨rfl, rfl, ?_, rfl, rfl⟩
  have h := Real.sin_sq_add_cos_sq (Real.pi / 6)
  unfold core_shell_ellipsoid.qx core_shell_ellipsoid.qy
    core_shell_ellipsoid.q core_shell_ellipsoid.phi
  nlinarith [h]

/-- C10: cylinder ER is nonnegative for nonnegative dimensions, vanishes at
radius 0, and is strictly increasing in each argument when both are
positive. -/
theorem cylinder_ER_monotone :
    (∀ r L : ℝ, 0 ≤ r → 0 ≤ L → 0 ≤ cylinder.ER r L)
    ∧ (∀ L : ℝ, cylinder.ER 0 L = 0)
    ∧ (∀ L r1 r2 : ℝ, 0 < L → 0 < r1 → r1 < r2 →
        cylinder.ER r1 L < cylinder.ER r2 L)
    ∧ (∀ r L1 L2 : ℝ, 0 < r → 0 < L1 → L1 < L2 →
        cylinder.ER r L1 < cylinder.ER r L2) := by
  have hπ := Real.pi_pos
  refine ⟨?_, ?_, ?_, ?_⟩
  · intro r L hr hL
    unfold cylinder.ER
    have hbase : (0 : ℝ) ≤ 0.75 * r *
        (2 * r * L + (L + r) * (L + Real.pi * r)) := by
      nlinarith [mul_nonneg hr hL, sq_nonneg L, sq_nonneg r,
        mul_nonneg (mul_nonneg hπ.le hr) hL,
        mul_nonneg hπ.le (mul_nonneg hr hr)]
    have := Real.rpow_nonneg hbase ((1 : ℝ) / 3)
    nlinarith [this]
  · intro L
    show 0.5 * (0.75 * 0 *
        (2 * 0 * L + (L + 0) * (L + Real.pi * 0))) ^ ((1 : ℝ) / 3) = 0
    rw [show (0.75 * (0 : ℝ) *
        (2 * 0 * L + (L + 0) * (L + Real.pi * 0))) = 0 from by ring,
      Real.zero_rpow (by norm_num), mul_zero]
  · intro L r1 r2 hL hr1 h12
    unfold cylinder.ER
    have hb1 : (0 : ℝ) ≤ 0.75 * r1 *
        (2 * r1 * L + (L + r1) * (L + Real.pi * r1)) := by
      nlinarith [mul_nonneg hr1.le hL.le, sq_nonneg L, sq_nonneg r1,
        mul_nonneg (mul_nonneg hπ.le hr1.le) hL.le,
        mul_nonneg hπ.le (mul_nonneg hr1.le hr1.le)]
    have hlt : 0.75 * r1 * (2 * r1 * L + (L + r1) * (L + Real.pi * r1))
        < 0.75 * r2 * (2 * r2 * L + (L + r2) * (L + Real.pi * r2)) := by
      nlinarith [mul_pos hr1 hL, sq_nonneg (r2 - r1),
        mul_pos (sub_pos.2 h12) hL,
        mul_pos hπ (mul_pos (sub_pos.2 h12) hr1),
        mul_pos hπ (mul_pos (sub_pos.2 h12)
          (mul_pos hr1 (hr1.trans h12))),
        mul_pos (mul_pos hr1 (hr1.trans h12)) hL,
        mul_pos hπ (mul_pos (sub_pos.2 h12) (sub_pos.2 h12))]
    have := Real.rpow_lt_rpow hb1 hlt (by norm_num : (0 : ℝ) < 1 / 3)
    nlinarith [this]
  · intro r L1 L2 hr hL1 h12
    unfold cylinder.ER
    have hb1 : (0 : ℝ) ≤ 0.75 * r *
        (2 * r * L1 + (L1 + r) * (L1 + Real.pi * r)) := by
      nlinarith [mul_nonneg hr.le hL1.le, sq_nonneg L1, sq_nonneg r,
        mul_nonneg (mul_nonneg hπ.le hr.le) hL1.le,
        mul_nonneg hπ.le (mul_nonneg hr.le hr.le)]
    have hlt : 0.75 * r * (2 * r * L1 + (L1 + r) * (L1 + Real.pi * r))
        < 0.75 * r * (2 * r * L2 + (L2 + r) * (L2 + Real.pi * r)) := by
      nlinarith [mul_pos hr (sub_pos.2 h12),
        mul_pos (mul_pos hr hr) (sub_pos.2 h12),
        mul_pos hπ (mul_pos (mul_pos hr hr) (sub_pos.2 h12)),
        mul_pos (sub_pos.2 h12) (add_pos hL1 (hL1.trans h12)),
        sq_nonneg (L2 - L1), mul_pos hL1 (sub_pos.2 h12)]
    have := Real.rpow_lt_rpow hb1 hlt (by norm_num : (0 : ℝ) < 1 / 3)
    nlinarith [this]

/-- Witness for C10 at concrete dimensions. -/
theorem cylinder_ER_monotone_witness :
    0 ≤ cylinder.ER 1 2 ∧ cylinder.ER 0 7 = 0
    ∧ cylinder.ER 1 3 < cylinder.ER 2 3
    ∧ cylinder.ER 2 1 < cylinder.ER 2 2 :=
  ⟨cylinder_ER_monotone.1 1 2 (by norm_num) (by norm_num),
   cylinder_ER_monotone.2.1 7,
   cylinder_ER_monotone.2.2.1 3 1 2 (by norm_num) (by norm_num)
     (by norm_num),
   cylinder_ER_monotone.2.2.2 2 1 2 (by norm_num) (by norm_num)
     (by norm_num)⟩
